import Mathlib

/-!
Verification development for the mcp-server-hex repository.

The embedding covers the Authenticated Request Gateway (src/auth/hex-auth.ts),
the pagination walker (HexProjectTools.getAllProjects in
src/tools/project-tools.ts), the tool dispatcher (src/index.ts) and the
argument validation of the cited handlers.  JavaScript runtime values are
modelled by the inductive type `JsValue`; thrown JavaScript errors are
modelled with `Except String`, carrying the thrown message.
-/

/-- A JavaScript runtime value, as far as the code under study inspects one:
null, undefined, the primitive booleans, numbers and strings, arrays and
plain objects (field lists; field names of a JS object are unique). -/
inductive JsValue where
  | null
  | undefined
  | bool (b : Bool)
  | num (n : Int)
  | str (s : String)
  | arr (elems : List JsValue)
  | obj (fields : List (String × JsValue))

/-- JavaScript `typeof v === 'object'`: true for null (the classic quirk),
arrays and objects, false for undefined and the other primitives. -/
def typeofIsObject : JsValue → Bool
  | .null => true
  | .arr _ => true
  | .obj _ => true
  | _ => false

/-- Whether the value is the JS `null` literal (`v !== null` is its negation). -/
def isNullValue : JsValue → Bool
  | .null => true
  | _ => false

/-- Value of a decimal digit string. -/
def natOfDigits (cs : List Char) : Nat :=
  cs.foldl (fun n c => 10 * n + (c.toNat - 48)) 0

/-- Whether the string `k` names an index property of an array of length
`len` (a digit string denoting a position below the length). -/
def arrIndexKey (len : Nat) (k : String) : Bool :=
  !(k.data.isEmpty) && k.data.all Char.isDigit && natOfDigits k.data < len

/-- The JavaScript `k in v` operator.  On an object it tests key presence, on
an array it tests the `length` property and the (canonical) index keys, and on
null, undefined or a primitive it throws a TypeError. -/
def propIn (v : JsValue) (k : String) : Except String Bool :=
  match v with
  | .obj fields => .ok ((fields.find? (fun p => p.1 == k)).isSome)
  | .arr elems =>
      .ok (k == "length" || arrIndexKey elems.length k)
  | _ => .error ("TypeError: Cannot use the in operator to search for " ++ k)

/-- JavaScript property access `v[k]` as the code uses it (always after an
`in` test succeeded, so the object branch is the interesting one); a missing
key yields `undefined`. -/
def getProp (v : JsValue) (k : String) : JsValue :=
  match v with
  | .obj fields => ((fields.find? (fun p => p.1 == k)).map (fun p => p.2)).getD .undefined
  | _ => .undefined

/-- `HexAuth.isApiError` (src/auth/hex-auth.ts lines 121-130), translated
clause by clause with JavaScript's short-circuit `&&`:
`typeof response === 'object' && response !== null && 'error' in response &&
typeof response.error === 'object' && 'code' in response.error &&
'message' in response.error`.  A TypeError thrown by `in` surfaces as
`Except.error`. -/
def isApiError (response : JsValue) : Except String Bool := do
  if !typeofIsObject response then return false
  if isNullValue response then return false
  let hasErr ← propIn response "error"
  if !hasErr then return false
  let err := getProp response "error"
  if !typeofIsObject err then return false
  let hasCode ← propIn err "code"
  if !hasCode then return false
  propIn err "message"

/-- The predicate in the spec's words: the value is an object containing an
`error` field that is itself an object containing both a `code` field and a
`message` field. -/
def specIsApiError (v : JsValue) : Bool :=
  match v with
  | .obj fields =>
      match fields.find? (fun p => p.1 == "error") with
      | some (_, JsValue.obj efields) =>
          ((efields.find? (fun p => p.1 == "code")).isSome &&
           (efields.find? (fun p => p.1 == "message")).isSome)
      | _ => false
  | _ => false

/-- `v` is an object whose `error` field holds the JS value `null` — the one
shape on which `isApiError` trips over `typeof null === 'object'` and the
subsequent `'code' in null` throws. -/
def errFieldIsNull (v : JsValue) : Bool :=
  match v with
  | .obj fields =>
      match fields.find? (fun p => p.1 == "error") with
      | some (_, JsValue.null) => true
      | _ => false
  | _ => false

/-! ## The Request Gateway (class HexAuth, src/auth/hex-auth.ts) -/

/-- The configuration value (HexConfig, src/types/index.ts).  `timeout` is an
Int because it comes from `parseInt` of an environment variable. -/
structure HexConfig where
  apiToken : String
  baseUrl : String
  timeout : Int
  debug : Bool

/-- The Gateway state: the configuration and the one-shot flag.  The field
`inited` models the class field `initialized` of HexAuth. -/
structure AuthState where
  config : HexConfig
  inited : Bool

/-- The outcome of the underlying `fetch` + `response.json()` pair:
a decoded response with an HTTP status, a timeout abort (an error whose
`name` is `TimeoutError`), or another thrown transport error. -/
inductive FetchOutcome where
  | resp (status : Nat) (body : JsValue)
  | timedOut
  | netErr (message : String)

/-- Message of the guard at the top of `makeRequest` (line 56). -/
def notInitializedMsg : String :=
  "Hex authentication not initialized. Call initialize() first."

/-- Message thrown on HTTP 429 (lines 90-94). -/
def rateLimitedMsg : String :=
  "Rate limit exceeded. Hex API allows 60 requests per minute. Please wait and try again."

/-- Message thrown on HTTP 401 (lines 96-100). -/
def unauthorizedMsg : String :=
  "Authentication failed. Please check your HEX_API_TOKEN."

/-- Message thrown on HTTP status 500 and above (lines 102-106). -/
def serverErrorMsg : String :=
  "Hex API server error. Please try again later."

/-- `HexAuth.makeRequest` (src/auth/hex-auth.ts lines 47-119), as a function
of the Gateway state and of what the network returns for this request.  The
first component is the classified result: `Except.error` models a thrown
`Error` carrying its message, `Except.ok` a normal return (either a success
body, or — for a non-success status other than 429/401/5xx — the decoded
body returned as the ApiError branch of `HexApiResponse`).  The second
component counts the `fetch` calls performed (0 or 1). -/
def makeRequest (st : AuthState) (outcome : FetchOutcome) :
    Except String JsValue × Nat :=
  if !st.inited then
    (.error notInitializedMsg, 0)
  else
    match outcome with
    | .timedOut =>
        (.error ("Request timeout after " ++ toString st.config.timeout ++ "ms"), 1)
    | .netErr m => (.error m, 1)
    | .resp status body =>
        if 200 ≤ status && status ≤ 299 then
          (.ok body, 1)
        else if status == 429 then
          (.error rateLimitedMsg, 1)
        else if status == 401 then
          (.error unauthorizedMsg, 1)
        else if 500 ≤ status then
          (.error serverErrorMsg, 1)
        else
          (.ok body, 1)

/-- `validateConfig` (src/utils/config.ts lines 13-33): empty token, empty
base URL, or a timeout below 1000 ms each throw. -/
def validateConfig (c : HexConfig) : Except String Unit :=
  if c.apiToken == "" then
    .error ("HEX_API_TOKEN environment variable is required. " ++
      "Please set it in your .env file or environment variables.")
  else if c.baseUrl == "" then
    .error ("HEX_API_BASE_URL environment variable is required. " ++
      "Please set it in your .env file or environment variables.")
  else if c.timeout < 1000 then
    .error "HEX_REQUEST_TIMEOUT must be at least 1000ms (1 second)"
  else
    .ok ()

/-- Crude JavaScript string coercion, used where the code interpolates a
possibly non-string value into an error message. -/
def jsCoerceString : JsValue → String
  | .str s => s
  | .num n => toString n
  | .bool b => cond b "true" "false"
  | .null => "null"
  | .undefined => "undefined"
  | .arr _ => ""
  | .obj _ => "[object Object]"

/-- Whether one character list is an initial segment of another. -/
def charsPrefix : List Char → List Char → Bool
  | [], _ => true
  | _ :: _, [] => false
  | c :: cs, d :: ds => c == d && charsPrefix cs ds

/-- Whether `needle` occurs inside `hay`. -/
def charsIncludes (needle : List Char) : List Char → Bool
  | [] => needle.isEmpty
  | c :: cs => charsPrefix needle (c :: cs) || charsIncludes needle cs

/-- JS `String.includes`: whether `needle` occurs as a substring of `hay`. -/
def strIncludes (hay needle : String) : Bool :=
  charsIncludes needle.data hay.data

/-- `HexAuth.validateConnection` (lines 25-45): the connectivity probe.  It
issues `makeRequest '/projects' (GET, limit 1)` with the *current* state,
rethrows ApiError bodies as `Authentication failed: ...`, and rewrites any
caught error whose message contains `401`.  Returns the probe result and the
number of fetch calls made. -/
def validateConnection (st : AuthState) (outcome : FetchOutcome) :
    Except String Unit × Nat :=
  let handle : Except String Unit → Except String Unit := fun r =>
    match r with
    | .error m =>
        if strIncludes m "401" then
          .error "Invalid Hex API token. Please check your HEX_API_TOKEN environment variable."
        else .error m
    | .ok () => .ok ()
  match makeRequest st outcome with
  | (.error m, n) => (handle (.error m), n)
  | (.ok body, n) =>
      match isApiError body with
      | .error te => (handle (.error te), n)
      | .ok true =>
          (handle (.error ("Authentication failed: " ++
            jsCoerceString (getProp (getProp body "error") "message"))), n)
      | .ok false => (.ok (), n)

/-- `HexAuth.initialize` (lines 13-23), here named `initAuth`: configuration
validation, then the connectivity probe, and only then `initialized = true`;
any thrown error is rethrown and the state is left unchanged.  Returns the
thrown-or-ok outcome, the resulting state, and the number of fetch calls. -/
def initAuth (st : AuthState) (outcome : FetchOutcome) :
    Except String Unit × AuthState × Nat :=
  match validateConfig st.config with
  | .error m => (.error m, st, 0)
  | .ok () =>
      match validateConnection st outcome with
      | (.error m, n) => (.error m, st, n)
      | (.ok (), n) => (.ok (), { st with inited := true }, n)

/-- `HexAuth.getConfig` (lines 132-134) returns a shallow copy; the heap
model for this is further below. `isInitialized` (lines 136-138). -/
def isInitializedFlag (st : AuthState) : Bool :=
  st.inited

/-! ## The pagination walker (HexProjectTools.getAllProjects,
src/tools/project-tools.ts lines 687-709) -/

/-- The decoded body of one `/projects` page (HexProjectListResponse).
Projects are kept opaque as strings; `projects` is optional because the code
guards with `response.projects || []`. -/
structure ProjectListResponse where
  projects : Option (List String)
  hasMore : Bool
  nextCursor : Option String

/-- What one `makeRequest` + `isApiError` round of the walker yields: a page,
or an ApiError body (whose message the walker throws). -/
inductive FetchPage where
  | ok (r : ProjectListResponse)
  | apiErr (message : String)

/-- JavaScript truthiness of the `after` variable (`string | undefined`):
`undefined` and the empty string are falsy. -/
def strTruthy : Option String → Bool
  | none => false
  | some s => !(s == "")

/-- The cursor actually sent for the current `after` value: the spread
`...(after && \x7b after \x7d)` adds the parameter only when `after` is
truthy. -/
def requestCursor (after : Option String) : Option String :=
  if strTruthy after then after else none

/-- Result of a whole walk: the collected projects, a thrown error message,
or fuel exhaustion (modelling a non-terminating do-while loop). -/
inductive WalkResult where
  | done (projects : List String)
  | failed (message : String)
  | diverged
deriving DecidableEq

/-- The do-while loop body of `getAllProjects`, with explicit fuel.  Each
iteration sends `requestCursor after`, aborts on an ApiError, otherwise
appends the page's projects, sets `after = hasMore ? nextCursor : undefined`
and repeats while `after` is truthy.  Also returns the list of cursors sent,
in order, one per fetch call. -/
def getAllProjectsGo (fetch : Option String → FetchPage) :
    Nat → List String → Option String → List (Option String) →
    WalkResult × List (Option String)
  | fuel, acc, after, calls =>
    let cursor := requestCursor after
    match fetch cursor with
    | .apiErr m => (.failed m, calls ++ [cursor])
    | .ok r =>
        let acc' := acc ++ r.projects.getD []
        let after' := if r.hasMore then r.nextCursor else none
        if strTruthy after' then
          match fuel with
          | 0 => (.diverged, calls ++ [cursor])
          | fuel' + 1 => getAllProjectsGo fetch fuel' acc' after' (calls ++ [cursor])
        else
          (.done acc', calls ++ [cursor])

/-- `HexProjectTools.getAllProjects`: the walk from an absent cursor with an
empty accumulator. -/
def getAllProjects (fetch : Option String → FetchPage) (fuel : Nat) :
    WalkResult × List (Option String) :=
  getAllProjectsGo fetch fuel [] none []

/-- The three-page server of the spec's pagination scenario: pages 1 and 2
report `hasMore` with cursors c1 and c2, page 3 ends the walk. -/
def threePageServer (p1 p2 p3 : List String) : Option String → FetchPage
  | none => .ok ⟨some p1, true, some "c1"⟩
  | some "c1" => .ok ⟨some p2, true, some "c2"⟩
  | some "c2" => .ok ⟨some p3, false, none⟩
  | some _ => .apiErr "unexpected cursor"

/-- The same server but page 2 is an ApiError. -/
def errorPage2Server (p1 : List String) (msg : String) : Option String → FetchPage
  | none => .ok ⟨some p1, true, some "c1"⟩
  | some "c1" => .apiErr msg
  | some _ => .apiErr "unexpected cursor"



/-! ## The tool dispatcher (HexMCPServer.setupHandlers, src/index.ts
lines 59-86) and the handler groups' registries -/

/-- The names claimed by `HexProjectTools.canHandleTool`
(src/tools/project-tools.ts lines 231-241). -/
def projectToolNames : List String :=
  ["hex_list_projects",
   "hex_get_project",
   "hex_create_presigned_url",
   "hex_search_projects",
   "hex_export_project_data",
   "hex_bulk_run_projects",
   "hex_get_project_summary"]

/-- The names claimed by `HexExecutionTools.canHandleTool`
(src/tools/execution-tools.ts lines 220-230). -/
def executionToolNames : List String :=
  ["hex_run_project",
   "hex_get_run_status",
   "hex_cancel_run",
   "hex_get_project_runs",
   "hex_get_execution_analytics",
   "hex_monitor_active_runs",
   "hex_schedule_project_run"]

/-- `HexProjectTools.canHandleTool`. -/
def canHandleToolProject (name : String) : Bool :=
  projectToolNames.contains name

/-- `HexExecutionTools.canHandleTool`. -/
def canHandleToolExecution (name : String) : Bool :=
  executionToolNames.contains name

/-- The payload handed back to the transport: the single text content element
the handlers produce, plus the `isError` flag (absent fields default to
false). -/
structure CallToolResult where
  text : String
  isError : Bool
deriving DecidableEq

/-- The catch clause of the CallTool handler (src/index.ts lines 74-85):
a result passes through, a thrown error message becomes the uniform
error-shaped payload. -/
def wrapDispatch : Except String CallToolResult → CallToolResult
  | .ok r => r
  | .error m => ⟨"Error: " ++ m, true⟩

/-- The CallTool request handler (src/index.ts lines 59-86): route to the
first group whose `canHandleTool` accepts the name (project tools are
consulted first), throw `Unknown tool` when none does, and convert any
thrown error into the error payload.  The two groups' `callTool` methods are
passed in as functions that either return a result or throw. -/
def handleCallTool
    (invokeProject invokeExecution : String → Except String CallToolResult)
    (name : String) : CallToolResult :=
  wrapDispatch
    (if canHandleToolProject name then invokeProject name
     else if canHandleToolExecution name then invokeExecution name
     else .error ("Unknown tool: " ++ name))

/-! ## Handler argument validation (HexProjectTools.getProject,
src/tools/project-tools.ts lines 330-341, HexExecutionTools.runProject,
src/tools/execution-tools.ts lines 253-315, and
HexExecutionTools.scheduleProjectRun, src/tools/execution-tools.ts
lines 595-648) -/

/-- Reading a member of the argument bag: a missing key is `undefined`. -/
def lookupArg (args : List (String × JsValue)) (k : String) : JsValue :=
  getProp (.obj args) k

/-- JavaScript `typeof v === 'string'`. -/
def isStringValue : JsValue → Bool
  | .str _ => true
  | _ => false

/-- JavaScript truthiness. -/
def jsTruthy : JsValue → Bool
  | .null => false
  | .undefined => false
  | .bool b => b
  | .num n => !(n == 0)
  | .str s => !(s == "")
  | .arr _ => true
  | .obj _ => true

/-- The guard both cited handlers run before anything else:
`if (typeof projectId !== 'string') throw new Error('project_id must be a string')`. -/
def projectIdErrMsg : String :=
  "project_id must be a string"

/-- `HexProjectTools.getProject`: validate `project_id`, then one Gateway
request to `/projects/<id>`, then the ApiError branch test.  The Gateway is
passed in as a function from the endpoint to its classified outcome; the
second component counts Gateway calls.  (The human-readable text rendering of
a successful response is out of scope; the decoded project body stands for
the produced result.) -/
def getProjectTool (gw : String → Except String JsValue)
    (args : List (String × JsValue)) : Except String JsValue × Nat :=
  match lookupArg args "project_id" with
  | .str pid =>
      match gw ("/projects/" ++ pid) with
      | .error m => (.error m, 1)
      | .ok response =>
          match isApiError response with
          | .error te => (.error te, 1)
          | .ok true =>
              (.error (jsCoerceString (getProp (getProp response "error") "message")), 1)
          | .ok false => (.ok response, 1)
  | _ => (.error projectIdErrMsg, 0)

/-- The request body `HexExecutionTools.runProject` builds
(src/tools/execution-tools.ts lines 260-278): `projectId` always, the other
fields only when the argument passes its type test. -/
def buildRunBody (args : List (String × JsValue)) (pid : String) :
    List (String × JsValue) :=
  let b := [("projectId", JsValue.str pid)]
  let ip := lookupArg args "input_params"
  let b := if jsTruthy ip && typeofIsObject ip then b ++ [("inputParams", ip)] else b
  let b := match lookupArg args "update_published_results" with
    | .bool v => b ++ [("updatePublishedResults", JsValue.bool v)]
    | _ => b
  let b := match lookupArg args "use_cached_sql_results" with
    | .bool v => b ++ [("useCachedSqlResults", JsValue.bool v)]
    | _ => b
  let nc := lookupArg args "notification_config"
  let b := if jsTruthy nc && typeofIsObject nc then b ++ [("notificationConfig", nc)] else b
  b

/-- `HexExecutionTools.runProject`: validate `project_id`, build the request
body, then one Gateway POST to `/projects/<id>/runs`, then the ApiError
branch test.  The Gateway stub takes the endpoint and the body. -/
def runProjectTool (gw : String → List (String × JsValue) → Except String JsValue)
    (args : List (String × JsValue)) : Except String JsValue × Nat :=
  match lookupArg args "project_id" with
  | .str pid =>
      match gw ("/projects/" ++ pid ++ "/runs") (buildRunBody args pid) with
      | .error m => (.error m, 1)
      | .ok response =>
          match isApiError response with
          | .error te => (.error te, 1)
          | .ok true =>
              (.error (jsCoerceString (getProp (getProp response "error") "message")), 1)
          | .ok false => (.ok response, 1)
  | _ => (.error projectIdErrMsg, 0)

/-- JavaScript strict equality of a value with a string literal. -/
def jsStrictEqStr (v : JsValue) (s : String) : Bool :=
  match v with
  | .str t => t == s
  | _ => false

/-- `HexExecutionTools.scheduleProjectRun` (src/tools/execution-tools.ts
lines 595-648): validate `project_id` by type, default `schedule_type` and
`timezone` by truthiness (the `as string` casts have no runtime effect),
reject a *falsy* `scheduled_time` with `scheduled_time is required`, and
otherwise return the simulated-scheduling text — never touching the Gateway
(the count is always 0). -/
def scheduleProjectRunTool (args : List (String × JsValue)) :
    Except String CallToolResult × Nat :=
  match lookupArg args "project_id" with
  | .str pid =>
      let scheduleType := if jsTruthy (lookupArg args "schedule_type")
        then lookupArg args "schedule_type" else .str "once"
      let scheduledTime := lookupArg args "scheduled_time"
      let timezone := if jsTruthy (lookupArg args "timezone")
        then lookupArg args "timezone" else .str "UTC"
      let inputParams := lookupArg args "input_params"
      let notificationConfig := lookupArg args "notification_config"
      if !jsTruthy scheduledTime then
        (.error "scheduled_time is required", 0)
      else
        let content :=
          "**Project Run Scheduled**\n\n" ++
          "**Project ID:** " ++ pid ++ "\n" ++
          "**Schedule Type:** " ++ jsCoerceString scheduleType ++ "\n" ++
          "**Scheduled Time:** " ++ jsCoerceString scheduledTime ++ "\n" ++
          "**Timezone:** " ++ jsCoerceString timezone ++ "\n" ++
          (if jsTruthy inputParams then "**Input Parameters:** Provided\n" else "") ++
          (if jsTruthy notificationConfig then "**Notifications:** Configured\n" else "") ++
          "\n**Note:** This is a simulated scheduling function. In a full implementation, this would:\n" ++
          "1. Create a scheduled job in the system\n" ++
          "2. Validate the schedule parameters\n" ++
          "3. Set up recurring execution if applicable\n" ++
          "4. Configure notifications for completion\n" ++
          "5. Return a schedule ID for management\n\n" ++
          (if jsStrictEqStr scheduleType "once" then
            "The project will run once at the specified time.\n"
          else
            "The project will run " ++ jsCoerceString scheduleType ++
              " starting from the specified time.\n") ++
          "Use project execution tools to monitor the scheduled runs when they occur."
        (.ok ⟨content, false⟩, 0)
  | _ => (.error projectIdErrMsg, 0)

/-! ## A heap model for `getConfig`'s shallow copy (src/auth/hex-auth.ts
lines 132-134) -/

/-- One field assignment a caller can perform on a config object it holds a
reference to. -/
inductive ConfigWrite where
  | setApiToken (v : String)
  | setBaseUrl (v : String)
  | setTimeout (v : Int)
  | setDebug (v : Bool)

/-- Apply one field assignment to a config record. -/
def applyWrite (c : HexConfig) : ConfigWrite → HexConfig
  | .setApiToken v => { c with apiToken := v }
  | .setBaseUrl v => { c with baseUrl := v }
  | .setTimeout v => { c with timeout := v }
  | .setDebug v => { c with debug := v }

/-- A store of config objects; an address is an index.  All fields of
HexConfig are JS primitives, so objects hold no further references and the
spread copy below copies everything the object owns. -/
def writeAt (h : List HexConfig) (a : Nat) (w : ConfigWrite) : List HexConfig :=
  match h.get? a with
  | some c => h.set a (applyWrite c w)
  | none => h

/-- A caller mutating, in any order, the object at address `a`. -/
def applyWrites (h : List HexConfig) (a : Nat) (ws : List ConfigWrite) :
    List HexConfig :=
  ws.foldl (fun h' w => writeAt h' a w) h

/-- `getConfig`: `return \x7b ...this.config \x7d` — allocate a fresh object
whose fields are copied from the one at `self`, and hand the fresh address
to the caller. -/
def getConfigCopy (h : List HexConfig) (self : Nat) : List HexConfig × Nat :=
  match h.get? self with
  | some c => (h ++ [c], h.length)
  | none => (h, self)


/-! ## Theorems for the claims -/

/-- C2 — While the `initialized` flag is false, every Gateway request fails
with the NotInitialized error and performs no fetch call (count 0), whatever
the network would have answered. -/
theorem notInited_request_fails_without_fetch
    (cfg : HexConfig) (outcome : FetchOutcome) :
    makeRequest ⟨cfg, false⟩ outcome = (.error notInitializedMsg, 0) := rfl

/-- C7 — Classification of non-success HTTP statuses by `makeRequest` on an
initialized Gateway: 429 throws the RateLimited message (which states the
60-requests-per-minute limit), 401 throws the Unauthorized message, any
status of 500 and above throws the ServerError message, and any other
non-success status returns the decoded body (the ApiError branch of the
classified response) instead of raising.  One fetch call in every case. -/
theorem status_classification :
    (∀ (cfg : HexConfig) (body : JsValue),
        makeRequest ⟨cfg, true⟩ (.resp 429 body) = (.error rateLimitedMsg, 1)) ∧
    strIncludes rateLimitedMsg "60 requests per minute" = true ∧
    (∀ (cfg : HexConfig) (body : JsValue),
        makeRequest ⟨cfg, true⟩ (.resp 401 body) = (.error unauthorizedMsg, 1)) ∧
    (∀ (cfg : HexConfig) (body : JsValue) (s : Nat), 500 ≤ s →
        makeRequest ⟨cfg, true⟩ (.resp s body) = (.error serverErrorMsg, 1)) ∧
    (∀ (cfg : HexConfig) (body : JsValue) (s : Nat),
        ¬(200 ≤ s ∧ s ≤ 299) → s ≠ 429 → s ≠ 401 → s < 500 →
        makeRequest ⟨cfg, true⟩ (.resp s body) = (.ok body, 1)) := by
  refine ⟨fun cfg body => rfl, by decide, fun cfg body => rfl, ?_, ?_⟩
  · intro cfg body s hs
    have h1 : ¬(200 ≤ s ∧ s ≤ 299) := by omega
    have h2 : s ≠ 429 := by omega
    have h3 : s ≠ 401 := by omega
    simp [makeRequest, h2, h3, hs, Nat.not_le.mp, h1]
  · intro cfg body s h1 h2 h3 h4
    have h5 : ¬ 500 ≤ s := by omega
    simp [makeRequest, h2, h3, h5]

/-- Witness for the hypothesis-bearing parts of `status_classification`,
at status 503 (ServerError) and status 404 (body returned, not raised). -/
theorem status_classification_witness :
    makeRequest ⟨⟨"t", "https://app.hex.tech/api/v1", 30000, false⟩, true⟩
        (.resp 503 .null) = (.error serverErrorMsg, 1) ∧
    makeRequest ⟨⟨"t", "https://app.hex.tech/api/v1", 30000, false⟩, true⟩
        (.resp 404 (.obj [("error", .obj [("code", .str "NOT_FOUND"),
          ("message", .str "no such project")])])) =
      (.ok (.obj [("error", .obj [("code", .str "NOT_FOUND"),
        ("message", .str "no such project")])]), 1) :=
  ⟨status_classification.2.2.2.1 _ _ 503 (by omega),
   status_classification.2.2.2.2 _ _ 404 (by omega) (by decide) (by decide) (by omega)⟩

/-- C1 — Evaluation of the initialization path: for every configuration that
passes validation and *whatever the network would answer the probe* (even a
successful HTTP 200), `initAuth` on an uninitialized Gateway throws the
NotInitialized message, issues zero fetch calls, and leaves the state — in
particular the `initialized` flag — unchanged.  The probe inside
`validateConnection` goes through `makeRequest`, whose not-initialized guard
fires because the flag is still false during initialization, so the success
path of `initialize()` (flag set to true) is unreachable. -/
theorem initAuth_probe_rejected_by_own_guard
    (cfg : HexConfig) (outcome : FetchOutcome)
    (hvalid : validateConfig cfg = .ok ()) :
    initAuth ⟨cfg, false⟩ outcome = (.error notInitializedMsg, ⟨cfg, false⟩, 0) := by
  have hinc : strIncludes notInitializedMsg "401" = false := by decide
  simp [initAuth, hvalid, validateConnection, makeRequest, hinc]

/-- Witness for `initAuth_probe_rejected_by_own_guard`: a concrete valid
configuration and a probe outcome that would have been a success. -/
theorem initAuth_probe_rejected_witness :
    initAuth ⟨⟨"token", "https://app.hex.tech/api/v1", 30000, false⟩, false⟩
        (.resp 200 (.obj [("projects", .arr []), ("hasMore", .bool false)])) =
      (.error notInitializedMsg,
        ⟨⟨"token", "https://app.hex.tech/api/v1", 30000, false⟩, false⟩, 0) :=
  initAuth_probe_rejected_by_own_guard _ _ rfl

/-- C6 counterexample — On the value `\x7b error: null \x7d` the predicate
does not return false: `typeof null === 'object'` lets null through, and the
subsequent `'code' in null` throws a TypeError.  The spec's shape predicate
classifies this value as not-an-ApiError, so the claim's "returns false (and
does not fail) for every other value" is refuted here. -/
theorem isApiError_throws_on_null_error_field :
    isApiError (.obj [("error", JsValue.null)]) =
      .error "TypeError: Cannot use the in operator to search for code" ∧
    specIsApiError (.obj [("error", JsValue.null)]) = false ∧
    isApiError (.obj [("error", JsValue.null)]) ≠ .ok false := by
  refine ⟨rfl, rfl, ?_⟩
  intro hc
  exact Except.noConfusion hc

/-- C6 amended — `isApiError` agrees with the spec's structural predicate on
every value except an object whose `error` field is the JS value null: it
returns true exactly on the spec's ApiError shape, throws the TypeError on a
null `error` field, and returns false everywhere else. -/
theorem isApiError_characterization (v : JsValue) :
    isApiError v =
      if errFieldIsNull v then
        .error "TypeError: Cannot use the in operator to search for code"
      else if specIsApiError v then .ok true
      else .ok false := by
  cases v with
  | null => rfl
  | undefined => rfl
  | bool b => rfl
  | num n => rfl
  | str s => rfl
  | arr elems =>
      have ha : arrIndexKey elems.length "error" = false := by
        have hd : ("error".data.all Char.isDigit) = false := by decide
        simp [arrIndexKey, hd]
      simp [isApiError, Bind.bind, Except.bind, pure, Except.pure, typeofIsObject, isNullValue, propIn, ha,
        specIsApiError, errFieldIsNull]
  | obj fields =>
      cases hf : fields.find? (fun p => p.1 == "error") with
      | none =>
          simp [isApiError, Bind.bind, Except.bind, pure, Except.pure, typeofIsObject, isNullValue, propIn, getProp, hf,
            specIsApiError, errFieldIsNull]
      | some kv =>
          obtain ⟨k, val⟩ := kv
          cases val with
          | null =>
              simp [isApiError, Bind.bind, Except.bind, pure, Except.pure, typeofIsObject, isNullValue, propIn, getProp, hf,
                specIsApiError, errFieldIsNull]
          | undefined =>
              simp [isApiError, Bind.bind, Except.bind, pure, Except.pure, typeofIsObject, isNullValue, propIn, getProp, hf,
                specIsApiError, errFieldIsNull]
          | bool b =>
              simp [isApiError, Bind.bind, Except.bind, pure, Except.pure, typeofIsObject, isNullValue, propIn, getProp, hf,
                specIsApiError, errFieldIsNull]
          | num n =>
              simp [isApiError, Bind.bind, Except.bind, pure, Except.pure, typeofIsObject, isNullValue, propIn, getProp, hf,
                specIsApiError, errFieldIsNull]
          | str s =>
              simp [isApiError, Bind.bind, Except.bind, pure, Except.pure, typeofIsObject, isNullValue, propIn, getProp, hf,
                specIsApiError, errFieldIsNull]
          | arr es =>
              have hc : arrIndexKey es.length "code" = false := by
                have hd : ("code".data.all Char.isDigit) = false := by decide
                simp [arrIndexKey, hd]
              simp [isApiError, Bind.bind, Except.bind, pure, Except.pure, typeofIsObject, isNullValue, propIn, getProp, hf,
                hc, specIsApiError, errFieldIsNull]
          | obj ef =>
              cases hcode : (ef.find? (fun p => p.1 == "code")).isSome <;>
                cases hmsg : (ef.find? (fun p => p.1 == "message")).isSome <;>
                  simp [isApiError, Bind.bind, Except.bind, pure, Except.pure, typeofIsObject, isNullValue, propIn, getProp,
                    hf, hcode, hmsg, specIsApiError, errFieldIsNull]

/-- A server whose single page reports `hasMore = true` but carries no
`nextCursor`. -/
def stuckServer : Option String → FetchPage :=
  fun _ => .ok ⟨some ["p1"], true, none⟩

/-- C3 counterexample — Against a server whose page reports `hasMore = true`
with an absent `nextCursor`, the walk returns normally after exactly one
fetch: `after = hasMore ? nextCursor : undefined` is undefined, so the
do-while condition is falsy and the loop stops even though no page ever
reported `hasMore = false`.  This refutes "it does not terminate merely
because nextCursor is absent on a page whose hasMore is true". -/
theorem walk_stops_on_absent_cursor :
    stuckServer (requestCursor none) =
      .ok ⟨some ["p1"], true, none⟩ ∧
    (⟨some ["p1"], true, none⟩ : ProjectListResponse).hasMore = true ∧
    getAllProjects stuckServer 9 = (.done ["p1"], [none]) :=
  ⟨rfl, rfl, rfl⟩

/-- C3 amended — The walk returns normally exactly when the page just
fetched has `hasMore = false` or a JS-falsy (absent or empty) `nextCursor`:
(1) whenever a walk from any intermediate state returns `done`, the page
fetched for the last issued cursor satisfies that stop condition, and
(2) whenever the current page satisfies it, the walk stops right there with
the accumulated items.  Cursor absence alone therefore does stop the walk
even when `hasMore` is true. -/
theorem walk_stop_characterization :
    (∀ (fetch : Option String → FetchPage) (fuel : Nat) (acc : List String)
        (after : Option String) (calls : List (Option String))
        (ps : List String) (cs : List (Option String)),
      getAllProjectsGo fetch fuel acc after calls = (.done ps, cs) →
      ∃ c r, cs.getLast? = some c ∧ fetch c = .ok r ∧
        (r.hasMore = false ∨ strTruthy r.nextCursor = false)) ∧
    (∀ (fetch : Option String → FetchPage) (fuel : Nat) (acc : List String)
        (after : Option String) (calls : List (Option String))
        (r : ProjectListResponse),
      fetch (requestCursor after) = .ok r →
      (r.hasMore = false ∨ strTruthy r.nextCursor = false) →
      getAllProjectsGo fetch fuel acc after calls =
        (.done (acc ++ r.projects.getD []), calls ++ [requestCursor after])) := by
  constructor
  · intro fetch fuel
    induction fuel with
    | zero =>
        intro acc after calls ps cs h
        cases hf : fetch (requestCursor after) with
        | apiErr m => simp [getAllProjectsGo, hf] at h
        | ok r =>
            by_cases hstop : strTruthy (if r.hasMore then r.nextCursor else none) = true
            · simp [getAllProjectsGo, hf, hstop] at h
            · rw [Bool.not_eq_true] at hstop
              refine ⟨requestCursor after, r, ?_, hf, ?_⟩
              · simp [getAllProjectsGo, hf, hstop] at h
                simp [← h.2, List.getLast?_concat]
              · cases hm : r.hasMore with
                | false => exact Or.inl rfl
                | true => right; rw [← hstop]; simp [hm]
    | succ fuel ih =>
        intro acc after calls ps cs h
        cases hf : fetch (requestCursor after) with
        | apiErr m => simp [getAllProjectsGo, hf] at h
        | ok r =>
            by_cases hstop : strTruthy (if r.hasMore then r.nextCursor else none) = true
            · rw [getAllProjectsGo] at h
              simp only [hf, hstop, if_pos] at h
              exact ih _ _ _ _ _ h
            · rw [Bool.not_eq_true] at hstop
              refine ⟨requestCursor after, r, ?_, hf, ?_⟩
              · simp [getAllProjectsGo, hf, hstop] at h
                simp [← h.2, List.getLast?_concat]
              · cases hm : r.hasMore with
                | false => exact Or.inl rfl
                | true => right; rw [← hstop]; simp [hm]
  · intro fetch fuel acc after calls r hf hstop
    have hs : strTruthy (if r.hasMore then r.nextCursor else none) = false := by
      rcases hstop with hm | hc
      · simp [hm, strTruthy]
      · cases hm : r.hasMore with
        | false => simp [strTruthy, hm]
        | true => simpa [hm] using hc
    simp [getAllProjectsGo, hf, hs]

/-- Witness for `walk_stop_characterization`: both directions instantiated
on the stuck server above. -/
theorem walk_stop_characterization_witness :
    (∃ c r, ([none] : List (Option String)).getLast? = some c ∧
      stuckServer c = .ok r ∧
      (r.hasMore = false ∨ strTruthy r.nextCursor = false)) ∧
    getAllProjectsGo stuckServer 9 [] none [] =
      (.done ([] ++ (some ["p1"] : Option (List String)).getD []),
        [] ++ [requestCursor none]) :=
  ⟨walk_stop_characterization.1 stuckServer 9 [] none [] ["p1"] [none] rfl,
   walk_stop_characterization.2 stuckServer 9 [] none []
     ⟨some ["p1"], true, none⟩ rfl (Or.inr rfl)⟩

/-- C4 — Against the three-page server the walk collects the pages' items in
order (page 1 then 2 then 3) and issues exactly three fetch calls: the first
with no cursor, the second with cursor c1, the third with cursor c2. -/
theorem walk_three_pages (p1 p2 p3 : List String) (n : Nat) :
    getAllProjects (threePageServer p1 p2 p3) (n + 2) =
      (.done (p1 ++ p2 ++ p3), [none, some "c1", some "c2"]) := by
  simp [getAllProjects, getAllProjectsGo, threePageServer, requestCursor, strTruthy]

/-- C5 — From any intermediate state of a walk (any items already
accumulated from earlier pages), a page answering with an ApiError makes the
walk abort at once: the result is the thrown error message — independent of
the accumulator, whose items are discarded — and no further fetch happens. -/
theorem walk_aborts_on_api_error
    (fetch : Option String → FetchPage) (fuel : Nat) (acc : List String)
    (after : Option String) (calls : List (Option String)) (m : String)
    (h : fetch (requestCursor after) = .apiErr m) :
    getAllProjectsGo fetch fuel acc after calls =
      (.failed m, calls ++ [requestCursor after]) := by
  simp [getAllProjectsGo, h]

/-- Witness for `walk_aborts_on_api_error`: page 1 already collected "a",
page 2 answers an ApiError; the walk surfaces it and "a" is discarded. -/
theorem walk_aborts_on_api_error_witness :
    getAllProjectsGo (errorPage2Server ["a"] "boom") 7 ["a"] (some "c1") [none] =
      (.failed "boom", [none] ++ [requestCursor (some "c1")]) :=
  walk_aborts_on_api_error (errorPage2Server ["a"] "boom") 7 ["a"]
    (some "c1") [none] "boom" rfl

/-- C8 — Dispatch behaviour of the CallTool handler: the two registries are
disjoint, so a name claimed by one group is claimed by exactly that group;
a project-claimed name is answered from the project group's invocation alone
and an execution-claimed name from the execution group's; the unregistered
name `hex_nonexistent` produces the UnknownTool error payload; and whenever
the selected invocation throws, the transport still receives the well-formed
error-shaped payload (message text plus `isError := true`) — by construction
of the catch clause, never an escaping exception. -/
theorem dispatch_routing :
    (∀ n, canHandleToolProject n = true → canHandleToolExecution n = false) ∧
    (∀ (invP invE : String → Except String CallToolResult) (n : String),
        canHandleToolProject n = true →
        handleCallTool invP invE n = wrapDispatch (invP n)) ∧
    (∀ (invP invE : String → Except String CallToolResult) (n : String),
        canHandleToolProject n = false → canHandleToolExecution n = true →
        handleCallTool invP invE n = wrapDispatch (invE n)) ∧
    (∀ (invP invE : String → Except String CallToolResult),
        handleCallTool invP invE "hex_nonexistent" =
          ⟨"Error: Unknown tool: hex_nonexistent", true⟩) ∧
    (∀ (invP invE : String → Except String CallToolResult) (n : String)
        (m : String), canHandleToolProject n = true → invP n = .error m →
        handleCallTool invP invE n = ⟨"Error: " ++ m, true⟩) ∧
    (∀ (invP invE : String → Except String CallToolResult) (n : String)
        (m : String), canHandleToolProject n = false →
        canHandleToolExecution n = true → invE n = .error m →
        handleCallTool invP invE n = ⟨"Error: " ++ m, true⟩) := by
  refine ⟨?_, ?_, ?_, ?_, ?_, ?_⟩
  · intro n h
    simp [canHandleToolProject, projectToolNames] at h
    rcases h with h | h | h | h | h | h | h <;> subst h <;> decide
  · intro invP invE n h
    simp [handleCallTool, h]
  · intro invP invE n h1 h2
    simp [handleCallTool, h1, h2]
  · intro invP invE
    rfl
  · intro invP invE n m h hm
    simp [handleCallTool, h, hm, wrapDispatch]
  · intro invP invE n m h1 h2 hm
    simp [handleCallTool, h1, h2, hm, wrapDispatch]

/-- Witness for `dispatch_routing`: concrete tool names and a throwing
project handler. -/
theorem dispatch_routing_witness :
    canHandleToolExecution "hex_get_project" = false ∧
    handleCallTool (fun _ => .error "project_id must be a string")
        (fun _ => .ok ⟨"unused", false⟩) "hex_get_project" =
      ⟨"Error: project_id must be a string", true⟩ ∧
    handleCallTool (fun _ => .ok ⟨"unused", false⟩)
        (fun _ => .ok ⟨"run started", false⟩) "hex_run_project" =
      wrapDispatch (.ok ⟨"run started", false⟩) :=
  ⟨dispatch_routing.1 "hex_get_project" rfl,
   dispatch_routing.2.2.2.2.1 _ _ "hex_get_project"
     "project_id must be a string" rfl rfl,
   dispatch_routing.2.2.1 _ _ "hex_run_project" rfl rfl⟩

/-- C9 amended — The cited handlers (getProject and runProject) validate
their required `project_id` by type and presence before any Gateway
traffic: with the argument missing or not a string, the invocation fails
with the message naming the field and the Gateway call count stays zero,
whatever the Gateway would have answered.  (Not every handler behaves this
way — see the scheduleProjectRun counterexample below.) -/
theorem handlers_validate_before_gateway
    (gwGet : String → Except String JsValue)
    (gwRun : String → List (String × JsValue) → Except String JsValue)
    (args : List (String × JsValue))
    (h : isStringValue (lookupArg args "project_id") = false) :
    getProjectTool gwGet args = (.error projectIdErrMsg, 0) ∧
    runProjectTool gwRun args = (.error projectIdErrMsg, 0) := by
  cases hv : lookupArg args "project_id" with
  | str s =>
      rw [hv] at h
      simp [isStringValue] at h
  | null => exact ⟨by simp [getProjectTool, hv], by simp [runProjectTool, hv]⟩
  | undefined => exact ⟨by simp [getProjectTool, hv], by simp [runProjectTool, hv]⟩
  | bool b => exact ⟨by simp [getProjectTool, hv], by simp [runProjectTool, hv]⟩
  | num n => exact ⟨by simp [getProjectTool, hv], by simp [runProjectTool, hv]⟩
  | arr es => exact ⟨by simp [getProjectTool, hv], by simp [runProjectTool, hv]⟩
  | obj fs => exact ⟨by simp [getProjectTool, hv], by simp [runProjectTool, hv]⟩

/-- Witness for `handlers_validate_before_gateway`: the spec's example
`project_id: 42`, against Gateway stubs that would have succeeded. -/
theorem handlers_validate_before_gateway_witness :
    getProjectTool (fun _ => .ok (.obj [("projectId", .str "x")]))
        [("project_id", .num 42)] = (.error projectIdErrMsg, 0) ∧
    runProjectTool (fun _ _ => .ok (.obj [("runId", .str "r")]))
        [("project_id", .num 42)] = (.error projectIdErrMsg, 0) :=
  handlers_validate_before_gateway _ _ [("project_id", .num 42)] rfl

/-- Writes addressed at `a` never change what any other address holds. -/
theorem applyWrites_get_ne (ws : List ConfigWrite) (a self : Nat)
    (hne : a ≠ self) :
    ∀ h : List HexConfig, (applyWrites h a ws).get? self = h.get? self := by
  induction ws with
  | nil => intro h; rfl
  | cons w ws ih =>
      intro h
      have hstep : (writeAt h a w).get? self = h.get? self := by
        unfold writeAt
        cases ha : h.get? a with
        | none => rfl
        | some c => exact List.get?_set_ne _ h hne
      calc (applyWrites h a (w :: ws)).get? self
          = (applyWrites (writeAt h a w) a ws).get? self := rfl
        _ = (writeAt h a w).get? self := ih (writeAt h a w)
        _ = h.get? self := hstep

/-- C10 — `getConfig` hands back a fresh shallow copy: the address returned
is new (distinct from the Gateway's own config address), and after any
sequence of field writes through that fresh address the Gateway's stored
configuration still reads back unchanged, so every subsequent request built
on the stored configuration behaves exactly as before the mutation.  All
HexConfig fields are JS primitives, so the shallow spread copies everything
the object owns. -/
theorem getConfig_returns_fresh_copy
    (h : List HexConfig) (self : Nat) (c : HexConfig) (ws : List ConfigWrite)
    (hs : h.get? self = some c) :
    getConfigCopy h self = (h ++ [c], h.length) ∧
    h.length ≠ self ∧
    (applyWrites (h ++ [c]) h.length ws).get? self = some c ∧
    (∀ (b : Bool) (outcome : FetchOutcome),
      makeRequest
          ⟨((applyWrites (h ++ [c]) h.length ws).get? self).getD c, b⟩ outcome =
        makeRequest ⟨c, b⟩ outcome) := by
  have hlt : self < h.length := by
    cases Nat.lt_or_ge self h.length with
    | inl hl => exact hl
    | inr hg =>
        rw [List.get?_eq_none.mpr hg] at hs
        exact absurd hs (by simp)
  have hne : h.length ≠ self := Nat.ne_of_gt hlt
  have hread : (applyWrites (h ++ [c]) h.length ws).get? self = some c := by
    rw [applyWrites_get_ne ws h.length self hne (h ++ [c])]
    rw [List.get?_append hlt]
    exact hs
  have hs' : h[self]? = some c := by
    rw [← List.get?_eq_getElem?]
    exact hs
  refine ⟨by simp [getConfigCopy, hs, hs'], hne, hread, ?_⟩
  intro b outcome
  rw [hread]
  simp

/-- Witness for `getConfig_returns_fresh_copy`: a one-object store, the copy
taken, its token and timeout overwritten; the stored configuration still
reads back intact. -/
theorem getConfig_returns_fresh_copy_witness :
    getConfigCopy [⟨"tok", "https://app.hex.tech/api/v1", 30000, false⟩] 0 =
      ([⟨"tok", "https://app.hex.tech/api/v1", 30000, false⟩,
        ⟨"tok", "https://app.hex.tech/api/v1", 30000, false⟩], 1) ∧
    (1 : Nat) ≠ 0 ∧
    (applyWrites [⟨"tok", "https://app.hex.tech/api/v1", 30000, false⟩,
        ⟨"tok", "https://app.hex.tech/api/v1", 30000, false⟩] 1
        [.setApiToken "mutated", .setTimeout 5]).get? 0 =
      some ⟨"tok", "https://app.hex.tech/api/v1", 30000, false⟩ ∧
    (∀ (b : Bool) (outcome : FetchOutcome),
      makeRequest
          ⟨((applyWrites [⟨"tok", "https://app.hex.tech/api/v1", 30000, false⟩,
              ⟨"tok", "https://app.hex.tech/api/v1", 30000, false⟩] 1
              [.setApiToken "mutated", .setTimeout 5]).get? 0).getD
            ⟨"tok", "https://app.hex.tech/api/v1", 30000, false⟩, b⟩ outcome =
        makeRequest ⟨⟨"tok", "https://app.hex.tech/api/v1", 30000, false⟩, b⟩
          outcome) :=
  getConfig_returns_fresh_copy
    [⟨"tok", "https://app.hex.tech/api/v1", 30000, false⟩] 0
    ⟨"tok", "https://app.hex.tech/api/v1", 30000, false⟩
    [.setApiToken "mutated", .setTimeout 5] rfl

/-- C9 counterexample — `hex_schedule_project_run` declares `scheduled_time`
as a required argument of type string in its schema, yet validates it only
by truthiness: invoked with the wrong-typed `scheduled_time: 42` (and a
valid `project_id`), it returns a success payload — no InvalidArgument
error naming the field is raised.  This refutes the claim quantified over
every handler with a required argument. -/
theorem scheduleRun_accepts_mistyped_required_arg :
    ∃ r : CallToolResult,
      scheduleProjectRunTool
          [("project_id", JsValue.str "abc123"),
           ("scheduled_time", JsValue.num 42)] =
        (.ok r, 0) ∧ r.isError = false :=
  ⟨_, rfl, rfl⟩
